import Mathlib

/-!
# Verification of the poem `rustls` TLS listener core

A shallow embedding of `src/poem/src/listener/rustls.rs`:

* `RustlsCertificate.create_certificate_key` — compiling one certificate
  descriptor (PEM certificate chain, private key scan, optional OCSP blob);
* `RustlsConfig.create_server_config` — compiling a whole TLS configuration
  (fallback + SNI map + client-auth verifier + ALPN list);
* `read_trust_anchor` — building a root certificate store from PEM bytes;
* `ResolveServerCert.resolve` — SNI certificate resolution;
* `RustlsConfig.into_stream` — the one-shot configuration feed;
* `RustlsAcceptor` — the reconfigure/accept race loop, modelled as a step
  function over a trace of select events.

External crates (`rustls_pemfile`, `rustls`/`aws-lc-rs` crypto) are embedded
at their interfaces: the byte fields that the Rust code hands to
`rustls_pemfile` are represented by the item sequences that parser yields,
and the crypto-provider checks `any_supported_type` / `RootCertStore::add`
are parameters of the compilation functions, so every theorem holds for all
behaviours of those external checks.
-/

deriving instance DecidableEq for Except

namespace Poem.Rustls

/-- DER bytes of one certificate (`CertificateDer` in rustls). -/
abbrev CertificateDer := List Nat

/-- An I/O-class error (`std::io::Error`), identified by its message as the
source builds them via `IoError::other(msg)`. -/
structure IoErr where
  msg : String
deriving DecidableEq, Repr

/-- A PEM item as produced by `rustls_pemfile::read_one` (the `Item` enum).
Unknown section types are skipped inside `rustls_pemfile` itself and never
surface, so they do not appear here. -/
inductive Item where
  | x509Certificate (der : CertificateDer)
  | subjectPublicKeyInfo (der : CertificateDer)
  | pkcs1Key (der : List Nat)
  | pkcs8Key (der : List Nat)
  | sec1Key (der : List Nat)
  | crl (der : List Nat)
  | csr (der : List Nat)
deriving DecidableEq, Repr

/-- A private key in one of the three recognised encodings
(`PrivateKeyDer` in rustls, built by the `key.into()` conversions). -/
inductive PrivateKeyDer where
  | pkcs1 (der : List Nat)
  | pkcs8 (der : List Nat)
  | sec1 (der : List Nat)
deriving DecidableEq, Repr

/-- The sequence of results yielded by `rustls_pemfile::certs` on a byte
slice: each element is either a parsed certificate or a parse error. -/
abbrev CertPemItems := List (Except IoErr CertificateDer)

/-- The sequence of results yielded by successive `rustls_pemfile::read_one`
calls on a byte slice; after the list is exhausted `read_one` returns
`Ok(None)`. -/
abbrev KeyPemItems := List (Except IoErr Item)

/-- `rustls_pemfile::certs(..).collect::<Result<Vec<_>, _>>()`: the first
parse error fails the whole collection, otherwise all certificates (possibly
zero of them) are returned. -/
def collectCerts : CertPemItems → Except IoErr (List CertificateDer)
  | [] => .ok []
  | .error e :: _ => .error e
  | .ok der :: rest => (collectCerts rest).map (der :: ·)

/-- The `loop` in `create_certificate_key` scanning `read_one` results: stop
at the first PKCS#1 / PKCS#8 / SEC1 block, skip every other item kind,
propagate a read error, and fail when the reader is exhausted (`read_one`
returned `Ok(None)`). -/
def scanPrivateKey : KeyPemItems → Except IoErr PrivateKeyDer
  | [] => .error ⟨"failed to parse tls private keys"⟩
  | .error e :: _ => .error e
  | .ok item :: rest =>
    match item with
    | .pkcs1Key der => .ok (.pkcs1 der)
    | .pkcs8Key der => .ok (.pkcs8 der)
    | .sec1Key der => .ok (.sec1 der)
    | _ => scanPrivateKey rest

/-- `rustls::sign::CertifiedKey`: certificate chain, signing key (we keep the
key DER that `any_supported_type` accepted), optional OCSP response. -/
structure CertifiedKey where
  cert : List CertificateDer
  key : PrivateKeyDer
  ocsp : Option (List Nat)
deriving DecidableEq, Repr

/-- `RustlsCertificate`: one certificate descriptor. The `cert` and `key`
byte fields are embedded as the item sequences `rustls_pemfile` yields on
them; `ocsp_resp` stays raw bytes. -/
structure RustlsCertificate where
  cert : CertPemItems
  key : KeyPemItems
  ocsp_resp : List Nat
deriving DecidableEq, Repr

/-- The external check `aws_lc_rs::sign::any_supported_type`: whether the
crypto provider accepts this private key for some supported signature
scheme. A parameter of the embedding (external crate behaviour). -/
abbrev SupportedKeyCheck := PrivateKeyDer → Bool

/-- `RustlsCertificate::create_certificate_key`: parse the certificate chain
(any error ⇒ "failed to parse tls certificates"), scan the key PEM blocks,
check the key with `any_supported_type` (failure ⇒ "invalid private key"),
attach the OCSP blob when non-empty. -/
def RustlsCertificate.create_certificate_key (ast : SupportedKeyCheck)
    (self : RustlsCertificate) : Except IoErr CertifiedKey := do
  let cert ←
    match collectCerts self.cert with
    | .ok cs => Except.ok cs
    | .error _ => Except.error ⟨"failed to parse tls certificates"⟩
  let priv_key ← scanPrivateKey self.key
  let key ←
    if ast priv_key then Except.ok priv_key
    else Except.error ⟨"invalid private key"⟩
  Except.ok
    { cert := cert
      key := key
      ocsp := if self.ocsp_resp ≠ [] then some self.ocsp_resp else none }

/-- `ResolveServerCert`: the SNI resolver state built by
`create_server_config`. The `HashMap<String, Arc<CertifiedKey>>` is embedded
as an association list queried with `List.lookup`. -/
structure ResolveServerCert where
  certificate_keys : List (String × CertifiedKey)
  fallback : Option CertifiedKey
deriving DecidableEq, Repr

/-- `ResolvesServerCert::resolve` for `ResolveServerCert`:
`client_hello.server_name().and_then(|name| map.get(name).cloned())
.or_else(|| fallback.clone())`. The `ClientHello` argument is embedded as
its only consumed part, the optional SNI server name. -/
def ResolveServerCert.resolve (self : ResolveServerCert)
    (server_name : Option String) : Option CertifiedKey :=
  (server_name.bind fun name => self.certificate_keys.lookup name).orElse
    fun _ => self.fallback

/-- The `TlsClientAuth` enum. A trust-anchor byte field is embedded as the
item sequence `rustls_pemfile::certs` yields on it. -/
inductive TlsClientAuth where
  | Off
  | Optional (trust_anchor : CertPemItems)
  | Required (trust_anchor : CertPemItems)
deriving DecidableEq, Repr

/-- `rustls::RootCertStore`: the anchors added so far. -/
abbrev RootCertStore := List CertificateDer

/-- The external check `RootCertStore::add`: whether webpki accepts this DER
as a trust anchor. A parameter of the embedding (external crate behaviour). -/
abbrev AnchorAddCheck := CertificateDer → Bool

/-- `read_trust_anchor`: start from `RootCertStore::empty()`, walk the
results of `rustls_pemfile::certs`, fail on the first parse error (message
propagated via `to_string`) or the first DER the store rejects, and return
the filled store. -/
def read_trust_anchor (addOk : AnchorAddCheck) :
    CertPemItems → Except IoErr RootCertStore
  | [] => .ok []
  | .error e :: _ => .error ⟨e.msg⟩
  | .ok der :: rest =>
    if addOk der then (read_trust_anchor addOk rest).map (der :: ·)
    else .error ⟨"invalid trust anchor"⟩

/-- The client-certificate policy installed on the engine configuration:
either `with_no_client_auth`, or a `WebPkiClientVerifier` over a root store,
with `allow_unauthenticated` recorded. -/
inductive ClientVerifierMode where
  | noClientAuth
  | verifier (roots : RootCertStore) (allowUnauthenticated : Bool)
deriving DecidableEq, Repr

/-- `ClientCertVerifier::client_auth_mandatory` for the installed policy:
the handshake fails when no client certificate is presented exactly when a
verifier is installed without `allow_unauthenticated`. -/
def ClientVerifierMode.clientAuthMandatory : ClientVerifierMode → Bool
  | .noClientAuth => false
  | .verifier _ allowUnauthenticated => !allowUnauthenticated

/-- `WebPkiClientVerifier::builder(roots)....build()`: fails with
`NoRootAnchors` when the root store is empty (the source maps the error via
`IoError::other`), otherwise yields the verifier. -/
def webPkiClientVerifierBuild (roots : RootCertStore)
    (allowUnauthenticated : Bool) : Except IoErr ClientVerifierMode :=
  if roots = [] then .error ⟨"no root trust anchors were provided"⟩
  else .ok (.verifier roots allowUnauthenticated)

/-- `rustls::ServerConfig` as `create_server_config` builds it: the
client-auth policy, the installed certificate resolver and the ALPN list.
Protocol versions are pinned to `DEFAULT_VERSIONS` by
`make_server_config_builder` and carry no further information here. -/
structure ServerConfig where
  clientAuth : ClientVerifierMode
  certResolver : ResolveServerCert
  alpn_protocols : List String
deriving DecidableEq, Repr

/-- `RustlsConfig`: named SNI certificates (the `HashMap` embedded as an
association list in iteration order), optional fallback descriptor and
client-auth mode. -/
structure RustlsConfig where
  certificates : List (String × RustlsCertificate)
  fallback : Option RustlsCertificate
  client_auth : TlsClientAuth
deriving DecidableEq, Repr

/-- The `for (name, certificate) in &self.certificates` loop: compile every
descriptor in iteration order, aborting at the first failure. -/
def compileCertificateKeys (ast : SupportedKeyCheck) :
    List (String × RustlsCertificate) →
    Except IoErr (List (String × CertifiedKey))
  | [] => .ok []
  | (name, certificate) :: rest => do
    let ck ← certificate.create_certificate_key ast
    let tail ← compileCertificateKeys ast rest
    Except.ok ((name, ck) :: tail)

/-- The fallback step of `create_server_config`:
`self.fallback.as_ref().map(|f| f.create_certificate_key()).transpose()?`. -/
def compileFallback (ast : SupportedKeyCheck) :
    Option RustlsCertificate → Except IoErr (Option CertifiedKey)
  | none => .ok none
  | some f => (f.create_certificate_key ast).map some

/-- The client-auth step of `create_server_config`: the
`match &self.client_auth` block building the verifier — `Off` ⇒
`with_no_client_auth`, `Optional` ⇒ `WebPkiClientVerifier` over the parsed
anchors with `allow_unauthenticated()`, `Required` ⇒ the plain verifier;
`read_trust_anchor` failures propagate via `?`. -/
def compileClientAuth (addOk : AnchorAddCheck) :
    TlsClientAuth → Except IoErr ClientVerifierMode
  | .Off => .ok .noClientAuth
  | .Optional trust_anchor => do
    let store ← read_trust_anchor addOk trust_anchor
    webPkiClientVerifierBuild store true
  | .Required trust_anchor => do
    let store ← read_trust_anchor addOk trust_anchor
    webPkiClientVerifierBuild store false

/-- `RustlsConfig::create_server_config`: compile the fallback descriptor
(if present), compile every named descriptor, build the client-auth policy,
install the SNI resolver, and set
`alpn_protocols = ["h2", "http/1.1"]`. -/
def RustlsConfig.create_server_config (ast : SupportedKeyCheck)
    (addOk : AnchorAddCheck) (self : RustlsConfig) :
    Except IoErr ServerConfig := do
  let fallback ← compileFallback ast self.fallback
  let certificate_keys ← compileCertificateKeys ast self.certificates
  let clientAuth ← compileClientAuth addOk self.client_auth
  Except.ok
    { clientAuth := clientAuth
      certResolver := { certificate_keys := certificate_keys
                        fallback := fallback }
      alpn_protocols := ["h2", "http/1.1"] }

/-- `IntoTlsConfigStream<RustlsConfig> for RustlsConfig::into_stream`:
eagerly compile the configuration (`let _ = self.create_server_config()?`)
and on success yield the one-element stream `once(ready(self))`, embedded as
the one-element list. -/
def RustlsConfig.into_stream (ast : SupportedKeyCheck)
    (addOk : AnchorAddCheck) (self : RustlsConfig) :
    Except IoErr (List RustlsConfig) := do
  let _ ← self.create_server_config ast addOk
  Except.ok [self]

/-- Outcome of polling a stream's `next()` once: the future resolved with
`some`/`none`, or it is still pending (never selected). -/
inductive StreamPoll (α : Type) where
  | ready (val : Option α)
  | pending
deriving DecidableEq, Repr

/-- `next()` on `S.chain(stream::pending())` where the underlying stream `S`
yields the finite item list `items`: call `i` yields item `i` while any
remain; once `S` is exhausted the chain polls `Pending`, which never
resolves, so `next()` never completes with `None`. -/
def chainPendingPoll {α : Type} (items : List α) (i : Nat) : StreamPoll α :=
  match items.get? i with
  | some c => .ready (some c)
  | none => .pending

/-- `RustlsAcceptor`: the configuration feed (as the finite item list of the
underlying stream `S`, chained with `pending()` by `new`) and the active
compiled configuration. A `tokio_rustls::TlsAcceptor` is
`from(Arc::new(server_config))`, so it is embedded as the `ServerConfig`
itself. -/
structure RustlsAcceptor where
  config_items : List RustlsConfig
  current_tls_acceptor : Option ServerConfig
deriving DecidableEq, Repr

/-- `RustlsAcceptor::new`: store the inner acceptor's feed chained with
`pending()` and start with no compiled configuration. -/
def RustlsAcceptor.new (config_stream : List RustlsConfig) : RustlsAcceptor :=
  { config_items := config_stream, current_tls_acceptor := none }

/-- Polling the acceptor's chained `config_stream` at position `i`. -/
def RustlsAcceptor.configStreamPoll (self : RustlsAcceptor) (i : Nat) :
    StreamPoll RustlsConfig :=
  chainPendingPoll self.config_items i

/-- An opaque raw connection produced by the inner acceptor, with its
addressing metadata collapsed to an identifier. -/
abbrev RawConn := Nat

/-- One resolution of the `tokio::select!` race in `accept`: either the
chained configuration stream yielded a configuration (it never yields
`None`, see `chainPendingPoll`), or the inner `accept` completed with a raw
connection or an I/O error. -/
inductive AcceptEvent where
  | config (c : RustlsConfig)
  | conn (res : Except IoErr RawConn)
deriving DecidableEq, Repr

/-- The scheme tag returned with an accepted connection. -/
inductive Scheme where
  | https
deriving DecidableEq, Repr

/-- What one `accept` call returns: the handshake-in-progress stream
(`HandshakeStream::new(tls_acceptor.accept(stream))`, embedded as the engine
configuration snapshot plus the raw connection) together with the scheme. -/
structure AcceptOk where
  handshakeConfig : ServerConfig
  rawConn : RawConn
  scheme : Scheme
deriving DecidableEq, Repr

/-- Result of running one `accept` call against a trace of select events:
the state left in `current_tls_acceptor`, the `tracing` messages emitted,
and the call's return value (`none` while the loop is still racing). -/
structure AcceptRun where
  state : Option ServerConfig
  log : List String
  result : Option (Except IoErr AcceptOk)
deriving DecidableEq, Repr

/-- The `loop { tokio::select! { … } }` body of `RustlsAcceptor::accept`,
driven by a trace of event resolutions. A configuration event compiles the
new configuration: on success it replaces `current_tls_acceptor` (logging
"tls config changed."/"tls config loaded."); on failure it logs
"invalid tls config." and leaves the state untouched. A connection event
ends the call: an inner error propagates (`res?`); with no active
configuration the call fails with "no valid tls config."; otherwise the
handshake stream is returned with `Scheme::HTTPS`. -/
def acceptLoop (ast : SupportedKeyCheck) (addOk : AnchorAddCheck)
    (state : Option ServerConfig) : List AcceptEvent → AcceptRun
  | [] => { state := state, log := [], result := none }
  | .config c :: rest =>
    match c.create_server_config ast addOk with
    | .ok server_config =>
      let message :=
        if state.isSome then "tls config changed." else "tls config loaded."
      let next := acceptLoop ast addOk (some server_config) rest
      { next with log := message :: next.log }
    | .error _ =>
      let next := acceptLoop ast addOk state rest
      { next with log := "invalid tls config." :: next.log }
  | .conn (.error e) :: _ =>
    { state := state, log := [], result := some (.error e) }
  | .conn (.ok stream) :: _ =>
    match state with
    | none =>
      { state := none
        log := []
        result := some (.error ⟨"no valid tls config."⟩) }
    | some tls_acceptor =>
      { state := some tls_acceptor
        log := []
        result := some (.ok { handshakeConfig := tls_acceptor
                              rawConn := stream
                              scheme := .https }) }

/-- The configuration-feed items an `accept` call actually consumes: every
configuration event of the trace up to (not including) the first connection
event, which ends the call. -/
def consumedConfigs : List AcceptEvent → List RustlsConfig
  | [] => []
  | .config c :: rest => c :: consumedConfigs rest
  | .conn _ :: _ => []

/-- Modelled from the spec: "the acceptor serves exactly the configuration
from the last successfully compiled item (or `Unconfigured` if none yet) —
configuration application is all-or-nothing per item and monotonically
overwritten only on success". Fold over the feed items: a successful
compile overwrites the active configuration, a failed one leaves it as it
was. Stated for refinement comparison with `acceptLoop`. -/
def lastSuccessfullyCompiled (ast : SupportedKeyCheck) (addOk : AnchorAddCheck)
    (active : Option ServerConfig) : List RustlsConfig → Option ServerConfig
  | [] => active
  | c :: rest =>
    match c.create_server_config ast addOk with
    | .ok sc => lastSuccessfullyCompiled ast addOk (some sc) rest
    | .error _ => lastSuccessfullyCompiled ast addOk active rest

/-- First compile error among the named certificate descriptors, in the
order `compileCertificateKeys` visits them. -/
def firstEntryError (ast : SupportedKeyCheck) :
    List (String × RustlsCertificate) → Option IoErr
  | [] => none
  | (_, certificate) :: rest =>
    match certificate.create_certificate_key ast with
    | .error e => some e
    | .ok _ => firstEntryError ast rest

/-- First descriptor compile error of a whole configuration: the fallback
descriptor (compiled first by `create_server_config`) and then the named
entries in order. -/
def firstDescriptorError (ast : SupportedKeyCheck) (c : RustlsConfig) :
    Option IoErr :=
  match c.fallback with
  | some f =>
    match f.create_certificate_key ast with
    | .error e => some e
    | .ok _ => firstEntryError ast c.certificates
  | none => firstEntryError ast c.certificates

/-- The private key carried by a PEM item when the item is one of the three
recognised private-key block types. -/
def keyItem : Item → Option PrivateKeyDer
  | .pkcs1Key der => some (.pkcs1 der)
  | .pkcs8Key der => some (.pkcs8 der)
  | .sec1Key der => some (.sec1 der)
  | _ => none

/-! ### Concrete fixtures for witnesses and counterexamples -/

/-- A crypto provider accepting every private key: the behaviour of
`any_supported_type` on well-formed keys of a supported algorithm. -/
def astAll : SupportedKeyCheck := fun _ => true

/-- A root store accepting every DER: the behaviour of
`RootCertStore::add` on well-formed trust anchors. -/
def addOkAll : AnchorAddCheck := fun _ => true

/-- A key field holding a single PKCS#8 private-key block. -/
def goodKeyItems : KeyPemItems := [.ok (.pkcs8Key [1, 2, 3])]

/-- A descriptor with one certificate and a PKCS#8 key. -/
def goodCert : RustlsCertificate :=
  { cert := [.ok [7]], key := goodKeyItems, ocsp_resp := [] }

/-- A descriptor whose certificate PEM fails to parse. -/
def badCert : RustlsCertificate :=
  { cert := [.error ⟨"bad pem"⟩], key := goodKeyItems, ocsp_resp := [] }

/-- A descriptor whose certificate bytes contain no PEM certificate at all
(`rustls_pemfile::certs` yields nothing), with a valid key. -/
def certNoCerts : RustlsCertificate :=
  { cert := [], key := goodKeyItems, ocsp_resp := [] }

/-- The empty configuration: no SNI entries, no fallback, no client auth. -/
def cfgEmpty : RustlsConfig :=
  { certificates := [], fallback := none, client_auth := .Off }

/-- The engine configuration `cfgEmpty` compiles to. -/
def scEmpty : ServerConfig :=
  { clientAuth := .noClientAuth
    certResolver := { certificate_keys := [], fallback := none }
    alpn_protocols := ["h2", "http/1.1"] }

/-- A configuration whose fallback descriptor fails to compile. -/
def cfgBad : RustlsConfig :=
  { certificates := [], fallback := some badCert, client_auth := .Off }

/-- A configuration with one SNI entry and a fallback, all compiling. -/
def cfgGood : RustlsConfig :=
  { certificates := [("a.com", goodCert)]
    fallback := some goodCert
    client_auth := .Off }

/-- A trust-anchor field with one parsed certificate. -/
def anchorGood : CertPemItems := [.ok [9]]

/-- A trust-anchor field whose PEM fails to parse. -/
def anchorBad : CertPemItems := [.error ⟨"bad anchor pem"⟩]

/-- Compiled certificate fixtures for the SNI resolution example. -/
def ckX : CertifiedKey := { cert := [[1]], key := .pkcs8 [1], ocsp := none }

/-- Second compiled certificate fixture. -/
def ckY : CertifiedKey := { cert := [[2]], key := .pkcs8 [2], ocsp := none }

/-- Fallback compiled certificate fixture. -/
def ckZ : CertifiedKey := { cert := [[3]], key := .pkcs8 [3], ocsp := none }

/-- The spec's resolver example: `certificate_keys = ⦃"a.com": X, "b.com": Y⦄`
with fallback `Z`. -/
def resolverExample : ResolveServerCert :=
  { certificate_keys := [("a.com", ckX), ("b.com", ckY)], fallback := some ckZ }

/-- The same resolver without a fallback. -/
def resolverNoFallback : ResolveServerCert :=
  { certificate_keys := [("a.com", ckX), ("b.com", ckY)], fallback := none }

/-- The compiled form of `goodCert`. -/
def ckGood : CertifiedKey :=
  { cert := [[7]], key := .pkcs8 [1, 2, 3], ocsp := none }

/-- The engine configuration `cfgGood` compiles to. -/
def scGood : ServerConfig :=
  { clientAuth := .noClientAuth
    certResolver := { certificate_keys := [("a.com", ckGood)]
                      fallback := some ckGood }
    alpn_protocols := ["h2", "http/1.1"] }

/-- A configuration with optional client authentication over `anchorGood`. -/
def cfgOptional : RustlsConfig :=
  { certificates := [], fallback := none, client_auth := .Optional anchorGood }

/-- The engine configuration `cfgOptional` compiles to. -/
def scOptional : ServerConfig :=
  { clientAuth := .verifier [[9]] true
    certResolver := { certificate_keys := [], fallback := none }
    alpn_protocols := ["h2", "http/1.1"] }

/-- A configuration with required client authentication over `anchorGood`. -/
def cfgRequired : RustlsConfig :=
  { certificates := [], fallback := none, client_auth := .Required anchorGood }

/-- The engine configuration `cfgRequired` compiles to. -/
def scRequired : ServerConfig :=
  { clientAuth := .verifier [[9]] false
    certResolver := { certificate_keys := [], fallback := none }
    alpn_protocols := ["h2", "http/1.1"] }

/-! ### Theorems -/

/-- Inversion of a successful `Except` bind: the first computation and the
continuation both succeeded. -/
theorem except_bind_ok {ε α β : Type} {ma : Except ε α} {f : α → Except ε β}
    {b : β} (h : (ma >>= f) = .ok b) : ∃ a, ma = .ok a ∧ f a = .ok b := by
  cases ma with
  | error e => simp [Bind.bind, Except.bind] at h
  | ok a => exact ⟨a, rfl, by simpa [Bind.bind, Except.bind] using h⟩

/-- Inversion for a successful `create_server_config`: every success comes
from a successful fallback compile, a successful compile of all named
entries and a successful client-auth build, and the resulting record is
exactly the one the source constructs. -/
theorem create_server_config_ok_inv (ast : SupportedKeyCheck)
    (addOk : AnchorAddCheck) (c : RustlsConfig) (sc : ServerConfig)
    (h : c.create_server_config ast addOk = .ok sc) :
    ∃ fbv keys ca,
      compileFallback ast c.fallback = .ok fbv ∧
      compileCertificateKeys ast c.certificates = .ok keys ∧
      compileClientAuth addOk c.client_auth = .ok ca ∧
      sc = { clientAuth := ca
             certResolver := { certificate_keys := keys, fallback := fbv }
             alpn_protocols := ["h2", "http/1.1"] } := by
  unfold RustlsConfig.create_server_config at h
  obtain ⟨fbv, hfb, h⟩ := except_bind_ok h
  obtain ⟨keys, hkeys, h⟩ := except_bind_ok h
  obtain ⟨ca, hca, h⟩ := except_bind_ok h
  exact ⟨fbv, keys, ca, hfb, hkeys, hca, by cases h; rfl⟩

/-- C2: if a hostname is presented and an exact, case-sensitive match exists
in `certificate_keys`, `resolve` returns that compiled certificate;
otherwise it returns the fallback if present; otherwise `none` (handshake
fails). No wildcard or suffix matching: a non-matching name falls through
to the fallback regardless of its shape. -/
theorem resolve_exact_match_else_fallback
    (r : ResolveServerCert) (name : String) (ck : CertifiedKey) :
    (r.certificate_keys.lookup name = some ck →
      r.resolve (some name) = some ck) ∧
    (r.certificate_keys.lookup name = none →
      r.resolve (some name) = r.fallback) ∧
    r.resolve none = r.fallback ∧
    (r.fallback = none → r.certificate_keys.lookup name = none →
      r.resolve (some name) = none) := by
  refine ⟨?_, ?_, ?_, ?_⟩ <;>
    · intros
      simp [ResolveServerCert.resolve, Option.orElse, *]

/-- Witness for C2, on the spec's own example: `⦃"a.com": X, "b.com": Y⦄`
with fallback `Z` resolves `"a.com"` to `X`, `"c.com"` and no-SNI to `Z`,
and without a fallback `"c.com"` resolves to `none`. -/
theorem resolve_exact_match_else_fallback_witness :
    resolverExample.resolve (some "a.com") = some ckX ∧
    resolverExample.resolve (some "c.com") = some ckZ ∧
    resolverExample.resolve none = some ckZ ∧
    resolverNoFallback.resolve (some "c.com") = none := by
  refine ⟨?_, ?_, ?_, ?_⟩
  · exact (resolve_exact_match_else_fallback resolverExample "a.com" ckX).1
      (by decide)
  · exact (resolve_exact_match_else_fallback resolverExample "c.com" ckX).2.1
      (by decide)
  · exact (resolve_exact_match_else_fallback resolverExample "c.com" ckX).2.2.1
  · exact
      (resolve_exact_match_else_fallback resolverNoFallback "c.com" ckX).2.2.2
      (by decide) (by decide)

/-- C8: the configuration stream handed to a `RustlsAcceptor` is chained
with an infinite never-yielding continuation, so polling it never resolves
with `None`: the `unreachable!()` branch of the accept loop's configuration
arm can never run, and every resolved configuration event carries `Some`
configuration. -/
theorem config_stream_never_yields_none
    (items : List RustlsConfig) (i : Nat) :
    (RustlsAcceptor.new items).configStreamPoll i ≠ StreamPoll.ready none := by
  unfold RustlsAcceptor.configStreamPoll chainPendingPoll RustlsAcceptor.new
  cases items.get? i <;> simp

/-- Witness for C8 at the empty feed, where the underlying stream is
exhausted immediately. -/
theorem config_stream_never_yields_none_witness :
    (RustlsAcceptor.new []).configStreamPoll 0 ≠ StreamPoll.ready none :=
  config_stream_never_yields_none [] 0

/-- C10: converting a single `RustlsConfig` into a configuration feed
eagerly compiles it: a compile error is returned from `into_stream` itself
(construction fails, not accept), and on success the feed is the one-element
stream holding exactly that configuration. -/
theorem into_stream_eager_compile (ast : SupportedKeyCheck)
    (addOk : AnchorAddCheck) (c : RustlsConfig) :
    (∀ e, c.create_server_config ast addOk = .error e →
      c.into_stream ast addOk = .error e) ∧
    (∀ sc, c.create_server_config ast addOk = .ok sc →
      c.into_stream ast addOk = .ok [c]) := by
  constructor <;> intro x h <;>
    simp [RustlsConfig.into_stream, bind, Except.bind, h]

/-- Witness for C10: the bad configuration fails at `into_stream` with the
compile error, the empty configuration yields the one-element feed. -/
theorem into_stream_eager_compile_witness :
    cfgBad.into_stream astAll addOkAll =
      .error ⟨"failed to parse tls certificates"⟩ ∧
    cfgEmpty.into_stream astAll addOkAll = .ok [cfgEmpty] := by
  constructor
  · exact (into_stream_eager_compile astAll addOkAll cfgBad).1
      ⟨"failed to parse tls certificates"⟩ (by decide)
  · exact (into_stream_eager_compile astAll addOkAll cfgEmpty).2 scEmpty
      (by decide)

/-- C7: key parsing scans PEM blocks in order, stops at the first
private-key-typed block (PKCS#1, PKCS#8 or SEC1), skips every other block
kind without failing, and when the sequence is exhausted with no recognised
private-key block it fails with the invalid-private-key error — which
`create_certificate_key` then propagates as the compilation error once the
certificate chain has parsed. -/
theorem scan_private_key_first_block :
    scanPrivateKey [] = .error ⟨"failed to parse tls private keys"⟩ ∧
    (∀ (it : Item) (k : PrivateKeyDer) (rest : KeyPemItems),
      keyItem it = some k → scanPrivateKey (.ok it :: rest) = .ok k) ∧
    (∀ (it : Item) (rest : KeyPemItems),
      keyItem it = none →
      scanPrivateKey (.ok it :: rest) = scanPrivateKey rest) ∧
    (∀ items : KeyPemItems,
      (∀ x ∈ items, ∃ it, x = .ok it ∧ keyItem it = none) →
      scanPrivateKey items = .error ⟨"failed to parse tls private keys"⟩) ∧
    (∀ (ast : SupportedKeyCheck) (d : RustlsCertificate)
        (cs : List CertificateDer) (e : IoErr),
      collectCerts d.cert = .ok cs → scanPrivateKey d.key = .error e →
      d.create_certificate_key ast = .error e) := by
  refine ⟨rfl, ?_, ?_, ?_, ?_⟩
  · intro it k rest h
    cases it <;> simp [keyItem] at h <;> simp [scanPrivateKey, ← h]
  · intro it rest h
    cases it <;> simp [keyItem] at h <;> simp [scanPrivateKey]
  · intro items
    induction items with
    | nil => intro h; rfl
    | cons x rest ih =>
      intro h
      obtain ⟨it, rfl, hnone⟩ := h x (List.mem_cons_self x rest)
      have hrest : ∀ y ∈ rest, ∃ it, y = .ok it ∧ keyItem it = none :=
        fun y hy => h y (List.mem_cons_of_mem _ hy)
      cases it <;> simp [keyItem] at hnone <;>
        simp [scanPrivateKey, ih hrest]
  · intro ast d cs e hc hk
    simp [RustlsCertificate.create_certificate_key, hc, hk, bind, Except.bind]

/-- Witness for C7: a CRL block is skipped before the PKCS#8 key is taken;
a key field holding only a CRL block exhausts with the
invalid-private-key error; `create_certificate_key` propagates it. -/
theorem scan_private_key_first_block_witness :
    scanPrivateKey [.ok (.crl [5]), .ok (.pkcs8Key [1, 2, 3])] =
      .ok (.pkcs8 [1, 2, 3]) ∧
    scanPrivateKey [.ok (.crl [5])] =
      .error ⟨"failed to parse tls private keys"⟩ ∧
    RustlsCertificate.create_certificate_key astAll
        { cert := [.ok [7]], key := [.ok (.crl [5])], ocsp_resp := [] } =
      .error ⟨"failed to parse tls private keys"⟩ := by
  have h := scan_private_key_first_block
  refine ⟨?_, ?_, ?_⟩
  · rw [h.2.2.1 (.crl [5]) [.ok (.pkcs8Key [1, 2, 3])] (by decide)]
    exact h.2.1 (.pkcs8Key [1, 2, 3]) (.pkcs8 [1, 2, 3]) [] (by decide)
  · exact h.2.2.2.1 [.ok (.crl [5])]
      fun y hy => ⟨.crl [5], List.mem_singleton.mp hy, rfl⟩
  · exact h.2.2.2.2 astAll _ [[7]] ⟨"failed to parse tls private keys"⟩
      (by decide)
      (h.2.2.2.1 [.ok (.crl [5])]
        fun y hy => ⟨.crl [5], List.mem_singleton.mp hy, rfl⟩)

/-- C3 counterexample: a descriptor whose certificate bytes contain **zero**
PEM certificates still compiles successfully (with an empty chain), so
compilation does not require "at least one valid X.509 certificate", and a
fortiori performs no key-against-certificate match check. -/
theorem create_certificate_key_zero_certs_cex :
    collectCerts certNoCerts.cert = .ok [] ∧
    certNoCerts.create_certificate_key astAll =
      .ok { cert := [], key := .pkcs8 [1, 2, 3], ocsp := none } := by
  constructor <;> rfl

/-- C3 (amended): `create_certificate_key` succeeds iff the certificate PEM
parses without error (into zero or more certificates) and the key scan
finds a recognised private-key block that `any_supported_type` accepts; the
private key is never checked against the certificate's public key, and all
failures are returned errors, never panics. -/
theorem create_certificate_key_success_iff (ast : SupportedKeyCheck)
    (d : RustlsCertificate) :
    (∃ ck, d.create_certificate_key ast = .ok ck) ↔
    ((∃ cs, collectCerts d.cert = .ok cs) ∧
      ∃ k, scanPrivateKey d.key = .ok k ∧ ast k = true) := by
  unfold RustlsCertificate.create_certificate_key
  cases hc : collectCerts d.cert with
  | error e => simp [bind, Except.bind]
  | ok cs =>
    cases hk : scanPrivateKey d.key with
    | error e => simp [bind, Except.bind]
    | ok k =>
      cases hast : ast k <;> simp [bind, Except.bind, hast]

/-- C9: every successfully compiled configuration advertises exactly
`["h2", "http/1.1"]` via ALPN, in that preference order, whatever the
configuration's contents. -/
theorem alpn_exactly_h2_http11 (ast : SupportedKeyCheck)
    (addOk : AnchorAddCheck) (c : RustlsConfig) (sc : ServerConfig)
    (h : c.create_server_config ast addOk = .ok sc) :
    sc.alpn_protocols = ["h2", "http/1.1"] := by
  obtain ⟨fbv, keys, ca, -, -, -, rfl⟩ :=
    create_server_config_ok_inv ast addOk c sc h
  rfl

/-- Witness for C9 on the empty configuration. -/
theorem alpn_exactly_h2_http11_witness :
    scEmpty.alpn_protocols = ["h2", "http/1.1"] :=
  alpn_exactly_h2_http11 astAll addOkAll cfgEmpty scEmpty (by decide)

/-- A first compile error among the named entries makes
`compileCertificateKeys` fail with exactly that error. -/
theorem compileCertificateKeys_error (ast : SupportedKeyCheck)
    (l : List (String × RustlsCertificate)) (e : IoErr)
    (h : firstEntryError ast l = some e) :
    compileCertificateKeys ast l = .error e := by
  induction l with
  | nil => simp [firstEntryError] at h
  | cons p rest ih =>
    obtain ⟨name, certificate⟩ := p
    unfold firstEntryError at h
    unfold compileCertificateKeys
    cases hc : certificate.create_certificate_key ast with
    | error e' =>
      rw [hc] at h
      cases h
      simp [bind, Except.bind]
    | ok ck =>
      rw [hc] at h
      simp only [bind, Except.bind, ih h]

/-- A successful `compileCertificateKeys` means every named entry compiled
(and there was no entry error to report). -/
theorem compileCertificateKeys_ok (ast : SupportedKeyCheck)
    (l : List (String × RustlsCertificate))
    (ks : List (String × CertifiedKey))
    (h : compileCertificateKeys ast l = .ok ks) :
    firstEntryError ast l = none ∧
    ∀ p ∈ l, ∃ ck, RustlsCertificate.create_certificate_key ast p.2 = .ok ck := by
  induction l generalizing ks with
  | nil => exact ⟨rfl, by simp⟩
  | cons p rest ih =>
    obtain ⟨name, certificate⟩ := p
    unfold compileCertificateKeys at h
    cases hc : certificate.create_certificate_key ast with
    | error e' => rw [hc] at h; simp [bind, Except.bind] at h
    | ok ck =>
      rw [hc] at h
      simp only [bind, Except.bind] at h
      cases htail : compileCertificateKeys ast rest with
      | error e' => rw [htail] at h; cases h
      | ok tail =>
        rw [htail] at h
        obtain ⟨h1, h2⟩ := ih tail htail
        refine ⟨by simp [firstEntryError, hc, h1], ?_⟩
        intro q hq
        rcases List.mem_cons.mp hq with hq | hq
        · exact ⟨ck, by rw [hq]; exact hc⟩
        · exact h2 q hq

/-- C6: `create_server_config` compiles the fallback descriptor (first) and
every named entry; the first descriptor failure aborts the whole compile
with exactly that error, and a success means the fallback (when present)
and every entry compiled — partial success is never exposed. Compilation
is a pure function of the configuration in this embedding (the source takes
`&self`), so repeating it trivially reproduces the same result. -/
theorem create_server_config_atomic (ast : SupportedKeyCheck)
    (addOk : AnchorAddCheck) (c : RustlsConfig) :
    (∀ e, firstDescriptorError ast c = some e →
      c.create_server_config ast addOk = .error e) ∧
    (∀ sc, c.create_server_config ast addOk = .ok sc →
      firstDescriptorError ast c = none ∧
      (∀ f, c.fallback = some f →
        ∃ ck, f.create_certificate_key ast = .ok ck) ∧
      ∀ p ∈ c.certificates,
        ∃ ck, RustlsCertificate.create_certificate_key ast p.2 = .ok ck) := by
  constructor
  · intro e h
    unfold RustlsConfig.create_server_config
    cases hfb : c.fallback with
    | some f =>
      simp only [firstDescriptorError, hfb] at h
      cases hf : f.create_certificate_key ast with
      | error e' =>
        simp only [hf] at h
        cases h
        simp [compileFallback, hfb, hf, Except.map, bind, Except.bind]
      | ok ck =>
        simp only [hf] at h
        have hkeys := compileCertificateKeys_error ast c.certificates e h
        simp [compileFallback, hfb, hf, Except.map, bind, Except.bind, hkeys]
    | none =>
      simp only [firstDescriptorError, hfb] at h
      have hkeys := compileCertificateKeys_error ast c.certificates e h
      simp [compileFallback, hfb, Except.map, bind, Except.bind, hkeys]
  · intro sc h
    obtain ⟨fbv, keys, ca, hfb, hkeys, hca, rfl⟩ :=
      create_server_config_ok_inv ast addOk c sc h
    obtain ⟨h1, h2⟩ := compileCertificateKeys_ok ast c.certificates keys hkeys
    refine ⟨?_, ?_, h2⟩
    · cases hf : c.fallback with
      | none => simpa [firstDescriptorError, hf] using h1
      | some f =>
        simp only [compileFallback, hf] at hfb
        cases hcf : f.create_certificate_key ast with
        | error e' => simp [hcf, Except.map] at hfb
        | ok ck => simp [firstDescriptorError, hf, hcf, h1]
    · intro f hf
      simp only [compileFallback, hf] at hfb
      cases hcf : f.create_certificate_key ast with
      | error e' => simp [hcf, Except.map] at hfb
      | ok ck => exact ⟨ck, rfl⟩

/-- Witness for C6: the configuration with a bad fallback fails atomically
with the fallback's own compile error; the fully valid configuration
compiles, with no entry error and both descriptors compiled. -/
theorem create_server_config_atomic_witness :
    cfgBad.create_server_config astAll addOkAll =
      .error ⟨"failed to parse tls certificates"⟩ ∧
    firstDescriptorError astAll cfgGood = none ∧
    (∃ ck, goodCert.create_certificate_key astAll = .ok ck) := by
  have hbad := (create_server_config_atomic astAll addOkAll cfgBad).1
    ⟨"failed to parse tls certificates"⟩ (by decide)
  have hgood := (create_server_config_atomic astAll addOkAll cfgGood).2
    scGood (by decide)
  exact ⟨hbad, hgood.1, hgood.2.1 goodCert rfl⟩

/-- Inversion of a successful `compileClientAuth` on `Optional`/`Required`:
the trust anchor parsed into a store and the verifier was built over it. -/
theorem compileClientAuth_verifier_inv (addOk : AnchorAddCheck)
    (ta : CertPemItems) (allowUnauthenticated : Bool) (ca : ClientVerifierMode)
    (h : compileClientAuth addOk
        (if allowUnauthenticated then .Optional ta else .Required ta) =
      .ok ca) :
    ∃ store, read_trust_anchor addOk ta = .ok store ∧ store ≠ [] ∧
      ca = .verifier store allowUnauthenticated := by
  cases allowUnauthenticated <;>
  · simp only [compileClientAuth, if_true, if_false] at h
    obtain ⟨store, hstore, hbuild⟩ := except_bind_ok h
    unfold webPkiClientVerifierBuild at hbuild
    by_cases hne : store = []
    · rw [if_pos hne] at hbuild; cases hbuild
    · rw [if_neg hne] at hbuild
      cases hbuild
      exact ⟨store, hstore, hne, rfl⟩

/-- C5: `Off` compiles to an engine configuration with no client
authentication (a client certificate is never required); `Optional(anchor)`
compiles to a `WebPkiClientVerifier` over the parsed anchor store with
`allow_unauthenticated`, so client authentication is offered but not
mandatory; `Required(anchor)` compiles to the plain verifier, under which
client authentication is mandatory (the handshake fails without a valid
client certificate); and a trust anchor whose PEM fails to parse makes the
whole compile fail — at compile time, never at a live connection. -/
theorem create_server_config_client_auth_modes (ast : SupportedKeyCheck)
    (addOk : AnchorAddCheck) :
    (∀ certs fb sc,
      RustlsConfig.create_server_config ast addOk
          { certificates := certs, fallback := fb, client_auth := .Off } =
        .ok sc →
      sc.clientAuth = .noClientAuth ∧
      sc.clientAuth.clientAuthMandatory = false) ∧
    (∀ certs fb ta sc,
      RustlsConfig.create_server_config ast addOk
          { certificates := certs, fallback := fb
            client_auth := .Optional ta } = .ok sc →
      ∃ store, read_trust_anchor addOk ta = .ok store ∧
        sc.clientAuth = .verifier store true ∧
        sc.clientAuth.clientAuthMandatory = false) ∧
    (∀ certs fb ta sc,
      RustlsConfig.create_server_config ast addOk
          { certificates := certs, fallback := fb
            client_auth := .Required ta } = .ok sc →
      ∃ store, read_trust_anchor addOk ta = .ok store ∧
        sc.clientAuth = .verifier store false ∧
        sc.clientAuth.clientAuthMandatory = true) ∧
    (∀ certs fb ta e,
      read_trust_anchor addOk ta = .error e →
      (∀ sc, RustlsConfig.create_server_config ast addOk
          { certificates := certs, fallback := fb
            client_auth := .Optional ta } ≠ .ok sc) ∧
      (∀ sc, RustlsConfig.create_server_config ast addOk
          { certificates := certs, fallback := fb
            client_auth := .Required ta } ≠ .ok sc)) := by
  refine ⟨?_, ?_, ?_, ?_⟩
  · intro certs fb sc h
    obtain ⟨fbv, keys, ca, -, -, hca, rfl⟩ :=
      create_server_config_ok_inv ast addOk _ sc h
    cases hca
    exact ⟨rfl, rfl⟩
  · intro certs fb ta sc h
    obtain ⟨fbv, keys, ca, -, -, hca, rfl⟩ :=
      create_server_config_ok_inv ast addOk _ sc h
    obtain ⟨store, hstore, -, rfl⟩ :=
      compileClientAuth_verifier_inv addOk ta true ca hca
    exact ⟨store, hstore, rfl, rfl⟩
  · intro certs fb ta sc h
    obtain ⟨fbv, keys, ca, -, -, hca, rfl⟩ :=
      create_server_config_ok_inv ast addOk _ sc h
    obtain ⟨store, hstore, -, rfl⟩ :=
      compileClientAuth_verifier_inv addOk ta false ca hca
    exact ⟨store, hstore, rfl, rfl⟩
  · intro certs fb ta e he
    constructor <;>
    · intro sc h
      obtain ⟨fbv, keys, ca, -, -, hca, -⟩ :=
        create_server_config_ok_inv ast addOk _ sc h
      simp only [compileClientAuth] at hca
      obtain ⟨store, hstore, -⟩ := except_bind_ok hca
      rw [he] at hstore
      cases hstore

/-- Witness for C5: `Off`, `Optional` and `Required` over the one-anchor
store, plus the unparsable anchor failing both modes at compile time. -/
theorem create_server_config_client_auth_modes_witness :
    (scEmpty.clientAuth = .noClientAuth ∧
      scEmpty.clientAuth.clientAuthMandatory = false) ∧
    (scOptional.clientAuth = .verifier [[9]] true ∧
      scOptional.clientAuth.clientAuthMandatory = false) ∧
    (scRequired.clientAuth = .verifier [[9]] false ∧
      scRequired.clientAuth.clientAuthMandatory = true) ∧
    (∀ sc, RustlsConfig.create_server_config astAll addOkAll
        { certificates := [], fallback := none
          client_auth := .Optional anchorBad } ≠ .ok sc) := by
  have h := create_server_config_client_auth_modes astAll addOkAll
  have h9 : read_trust_anchor addOkAll anchorGood = .ok [[9]] := by decide
  refine ⟨h.1 [] none scEmpty (by decide), ?_, ?_, ?_⟩
  · obtain ⟨store, hstore, hmode, hmand⟩ :=
      h.2.1 [] none anchorGood scOptional (by decide)
    injection h9.symm.trans hstore with hs
    exact ⟨hs ▸ hmode, hmand⟩
  · obtain ⟨store, hstore, hmode, hmand⟩ :=
      h.2.2.1 [] none anchorGood scRequired (by decide)
    injection h9.symm.trans hstore with hs
    exact ⟨hs ▸ hmode, hmand⟩
  · exact (h.2.2.2 [] none anchorBad ⟨"bad anchor pem"⟩ (by decide)).1

/-- C1: across any accept-loop event trace, `current_tls_acceptor` is
exactly the configuration from the last successfully compiled feed item it
consumed, or the previously active one (initially `Unconfigured`) if none
succeeded — and a feed item that fails to compile reports the error
("invalid tls config.") while leaving the state, and the call's eventual
result, exactly as if the item had never arrived: application is
all-or-nothing per item and overwritten only on success. -/
theorem accept_keeps_last_successful_config (ast : SupportedKeyCheck)
    (addOk : AnchorAddCheck) :
    (∀ state evts,
      (acceptLoop ast addOk state evts).state =
        lastSuccessfullyCompiled ast addOk state (consumedConfigs evts)) ∧
    (∀ state c rest e, c.create_server_config ast addOk = .error e →
      (acceptLoop ast addOk state (.config c :: rest)).state =
        (acceptLoop ast addOk state rest).state ∧
      (acceptLoop ast addOk state (.config c :: rest)).result =
        (acceptLoop ast addOk state rest).result ∧
      (acceptLoop ast addOk state (.config c :: rest)).log =
        "invalid tls config." :: (acceptLoop ast addOk state rest).log) := by
  constructor
  · intro state evts
    induction evts generalizing state with
    | nil => rfl
    | cons ev rest ih =>
      cases ev with
      | config c =>
        cases hc : c.create_server_config ast addOk with
        | ok sc =>
          simp [acceptLoop, hc, consumedConfigs, lastSuccessfullyCompiled, ih]
        | error e =>
          simp [acceptLoop, hc, consumedConfigs, lastSuccessfullyCompiled, ih]
      | conn r =>
        cases r with
        | error e =>
          simp [acceptLoop, consumedConfigs, lastSuccessfullyCompiled]
        | ok raw =>
          cases state <;>
            simp [acceptLoop, consumedConfigs, lastSuccessfullyCompiled]
  · intro state c rest e hc
    refine ⟨?_, ?_, ?_⟩ <;> simp [acceptLoop, hc]

/-- Witness for C1: one bad feed item on the unconfigured acceptor logs the
error and leaves the state `Unconfigured`. -/
theorem accept_keeps_last_successful_config_witness :
    (acceptLoop astAll addOkAll none [.config cfgBad]).state = none ∧
    (acceptLoop astAll addOkAll none [.config cfgBad]).log =
      ["invalid tls config."] := by
  have h := (accept_keeps_last_successful_config astAll addOkAll).2 none cfgBad
    [] ⟨"failed to parse tls certificates"⟩ (by decide)
  exact ⟨h.1, h.2.2⟩

/-- C4: an accept call on an `Unconfigured` acceptor that receives a raw
connection fails with the "no valid tls config." I/O error, without
terminating the loop (the state survives for later calls); an accept call
made once a configuration has compiled successfully returns the handshake
stream with the `HTTPS` scheme. -/
theorem accept_unconfigured_fails_then_succeeds (ast : SupportedKeyCheck)
    (addOk : AnchorAddCheck) (raw raw2 : RawConn) (c : RustlsConfig)
    (sc : ServerConfig) (h : c.create_server_config ast addOk = .ok sc) :
    (acceptLoop ast addOk none [.conn (.ok raw)]).result =
      some (.error ⟨"no valid tls config."⟩) ∧
    (acceptLoop ast addOk none [.conn (.ok raw)]).state = none ∧
    (acceptLoop ast addOk none [.config c, .conn (.ok raw2)]).result =
      some (.ok { handshakeConfig := sc, rawConn := raw2
                  scheme := .https }) := by
  refine ⟨rfl, rfl, ?_⟩
  simp [acceptLoop, h]

/-- Witness for C4: connection 0 is refused before any configuration,
connection 1 is served after the empty configuration loads. -/
theorem accept_unconfigured_fails_then_succeeds_witness :
    (acceptLoop astAll addOkAll none [.conn (.ok 0)]).result =
      some (.error ⟨"no valid tls config."⟩) ∧
    (acceptLoop astAll addOkAll none [.conn (.ok 0)]).state = none ∧
    (acceptLoop astAll addOkAll none
        [.config cfgEmpty, .conn (.ok 1)]).result =
      some (.ok { handshakeConfig := scEmpty, rawConn := 1
                  scheme := .https }) :=
  accept_unconfigured_fails_then_succeeds astAll addOkAll 0 1 cfgEmpty scEmpty
    (by decide)

end Poem.Rustls
